import Mathlib

/-!
# Roomba MQTT firmware — verification of the Device Telemetry & Control Engine

Shallow embedding of the firmware in `src/Roomba_MQTT.ino`.  The repository
file concatenates three revisions of the firmware; unless noted otherwise,
every definition below embeds the middle ("richest") revision, lines
1042-2770, which the specification was written from.  Machine integers are
modelled as `Nat`/`Int`, with an explicit `% 2^w` wherever the C code can
overflow its type.  Serial output is modelled as the ordered list of bytes
written; MQTT output as the ordered list of (topic, payload) pairs.
`millis()` is passed in as an explicit `now : Nat` argument.  The float
arithmetic in `observeEncoders` is modelled exactly over `ℚ`; the claims
proved about it depend only on the sign of the computed quantity.
-/

namespace Roomba

/-- `#define SLEEPING 0` (line 1070). -/
def SLEEPING : Int := 0

/-- `#define CLEANING 1` (line 1071). -/
def CLEANING : Int := 1

/-- `#define IDLING 2` (line 1072). -/
def IDLING : Int := 2

/-- Read byte `i` of a serial buffer (a `char` cell of `tmpBuffer`); serial
reads always store a value in `0..255`. -/
def byteAt (buf : List Nat) (i : Nat) : Nat := buf.getD i 0 % 256

/-- The value of a byte when the C code reads it through a signed 8-bit
`char` (temperature, stasis, the charging-state switch). -/
def asSigned8 (b : Nat) : Int :=
  if b % 256 < 128 then (b % 256 : Int) else (b % 256 : Int) - 256

/-- Two's-complement reading of a 16-bit word, as produced by
`combineBytesToSignedInt` (lines 2562-2580). -/
def asSigned16 (w : Nat) : Int :=
  if w % 65536 < 32768 then (w % 65536 : Int) else (w % 65536 : Int) - 65536

/-- `combineBytesToUnsignedInt` (lines 2541-2559): `(high << 8) | low` on
byte values. -/
def combineBytesToUnsignedInt (byteHigh byteLow : Nat) : Nat :=
  (byteHigh % 256) * 256 + byteLow % 256

/-- `combineBytesToSignedInt` (lines 2562-2580): same bits read as a signed
16-bit two's-complement value. -/
def combineBytesToSignedInt (byteHigh byteLow : Nat) : Int :=
  asSigned16 (combineBytesToUnsignedInt byteHigh byteLow)

/-- `computeEncoderDistance` (lines 2310-2330).  Arguments and the return
value are `uint16_t`; the two branch expressions are computed in `int` and
truncated back to `uint16_t` on assignment, hence the `% 65536`. -/
def computeEncoderDistance (currentValue previousValue : Nat) : Nat :=
  if 65535 < previousValue + currentValue then
    ((65535 - previousValue) + currentValue) % 65536
  else
    ((((currentValue : Int) - (previousValue : Int)) % 65536).toNat) % 65536

/-- The charging-state `switch` on `tmpBuffer[3]` in `getRoombaData`
(lines 2010-2038); the buffer cell it reads is a signed `char`. -/
def decodeChargingState (b : Nat) : String :=
  let v := asSigned8 b
  if v = 0 then "NOT_CHARGING"
  else if v = 1 then "CHARGING_RECONDITIONING"
  else if v = 2 then "CHARGING_FULL"
  else if v = 3 then "CHARGING_TRICKLE"
  else if v = 4 then "WAITING"
  else if v = 5 then "FAULT"
  else "UNKNOWN"

/-- `structRoombaData.cleaningCycle` (lines 1140-1144); `unsigned long`
timestamps from `millis()`. -/
structure CleaningCycle where
  startTime : Nat
  endTime : Nat
  runTime : Nat
  deriving Repr, DecidableEq

/-- `structRoombaData.battery` (lines 1146-1154). -/
structure Battery where
  voltage : Nat
  current : Int
  temperature : Int
  charge : Nat
  capacity : Nat
  chargingState : String
  percentRemaining : String
  deriving Repr, DecidableEq

/-- `structRoombaData.motorCurrent` (lines 1156-1161).  The fields are
declared `uint16_t` although they are assigned from
`combineBytesToSignedInt`; the implicit `int16_t → uint16_t` conversion
keeps the same 16-bit pattern, so each field holds the raw word `0..65535`. -/
structure MotorCurrent where
  leftWheel : Nat
  rightWheel : Nat
  mainBrush : Nat
  sideBrush : Nat
  deriving Repr, DecidableEq

/-- `structRoombaData.wheels` (lines 1163-1166): `uint16_t` encoder cells. -/
structure Wheels where
  leftEncoder : Nat
  rightEncoder : Nat
  deriving Repr, DecidableEq

/-- `structRoombaData` (lines 1134-1168). -/
structure RoombaData where
  runStatus : Int
  odometer : Nat
  stasis : Int
  cleaningCycle : CleaningCycle
  battery : Battery
  motorCurrent : MotorCurrent
  wheels : Wheels
  deriving Repr, DecidableEq

/-- `settings.minimumReportingDelta` (lines 1123-1129), `int` fields. -/
structure ReportingDeltas where
  voltage : Int
  current : Int
  temperature : Int
  charge : Int
  percentRemaining : Int
  deriving Repr, DecidableEq

/-- The defaults installed by `setup()` (lines 1220-1224). -/
def defaultDeltas : ReportingDeltas :=
  { voltage := 200, current := 512, temperature := 2, charge := 50
    percentRemaining := 1 }

/-- The mutable globals of the middle revision that the engine touches
(`roombaDataObserved`, `roombaDataReported`, `settings.sensors.lastRetrieved`,
the reporting deltas and the sensor topic), together with the outbound MQTT
messages and serial bytes produced so far. -/
structure Sys where
  observed : RoombaData
  reported : RoombaData
  deltas : ReportingDeltas
  sensorTopic : String
  lastRetrieved : Nat
  mqttOut : List (String × String)
  serialOut : List Nat
  deriving Repr, DecidableEq

/-- `publishMQTT` as far as this core is concerned: append the message. -/
def publishMQTT (s : Sys) (topic payload : String) : Sys :=
  { s with mqttOut := s.mqttOut ++ [(topic, payload)] }

/-- Append bytes written with `Serial1.write`; `int` arguments are
truncated to `uint8_t`. -/
def serialWrite (s : Sys) (bytes : List Nat) : Sys :=
  { s with serialOut := s.serialOut ++ bytes }

/-- `runStatusToString` (lines 1874-1896), reading the given status value. -/
def runStatusToString (runStatus : Int) : String :=
  if runStatus = 0 then "SLEEPING"
  else if runStatus = 1 then "CLEANING"
  else if runStatus = 2 then "IDLING"
  else "UNKNOWN"

/-- `setRunStatus` (lines 1898-1913): on a change of the reported status,
update both copies and publish; otherwise do nothing. -/
def setRunStatus (s : Sys) (runStatus : Int) : Sys :=
  if runStatus ≠ s.reported.runStatus then
    let s := { s with
      reported := { s.reported with runStatus := runStatus }
      observed := { s.observed with runStatus := runStatus } }
    publishMQTT s (s.sensorTopic ++ "/runStatus")
      (runStatusToString s.observed.runStatus)
  else s

/-- Arduino `String::toInt` = C `atol`: skip leading whitespace, an optional
sign, then greedily read decimal digits; no digits gives `0`.  (Values beyond
the 32-bit `long` are kept exact here; the firmware only ever compares the
result against small bounds.) -/
def isSpaceChar (c : Char) : Bool :=
  c = ' ' ∨ c = '\t' ∨ c = '\n' ∨ c = '\x0b' ∨ c = '\x0c' ∨ c = '\r'

/-- Accumulate the leading decimal digits of a character list. -/
def digitsVal : List Char → Int → Int
  | c :: cs, acc =>
      if c.isDigit then digitsVal cs (acc * 10 + ((c.toNat : Int) - 48)) else acc
  | [], acc => acc

/-- `atol` over the characters of an Arduino `String`. -/
def atol (cs : List Char) : Int :=
  match cs.dropWhile (fun c => isSpaceChar c) with
  | '-' :: rest => - digitsVal rest 0
  | '+' :: rest => digitsVal rest 0
  | rest => digitsVal rest 0

/-- Arduino `String::toInt()`. -/
def arduinoToInt (s : String) : Int := atol s.data

/-- Update helpers for the nested `roombaDataReported.battery` record. -/
def setReportedBattery (s : Sys) (b : Battery) : Sys :=
  { s with reported := { s.reported with battery := b } }

/-- Voltage block of `reportRoombaSensorChanges` (lines 2110-2118). -/
def reportVoltage (s : Sys) : Sys :=
  if s.deltas.voltage < |(s.observed.battery.voltage : Int) - (s.reported.battery.voltage : Int)| then
    let s := setReportedBattery s { s.reported.battery with voltage := s.observed.battery.voltage }
    publishMQTT s (s.sensorTopic ++ "/batteryVoltage") (toString s.reported.battery.voltage)
  else s

/-- Current block of `reportRoombaSensorChanges` (lines 2120-2128). -/
def reportCurrent (s : Sys) : Sys :=
  if s.deltas.current < |s.observed.battery.current - s.reported.battery.current| then
    let s := setReportedBattery s { s.reported.battery with current := s.observed.battery.current }
    publishMQTT s (s.sensorTopic ++ "/batteryCurrent") (toString s.reported.battery.current)
  else s

/-- Temperature block of `reportRoombaSensorChanges` (lines 2130-2138). -/
def reportTemperature (s : Sys) : Sys :=
  if s.deltas.temperature < |s.observed.battery.temperature - s.reported.battery.temperature| then
    let s := setReportedBattery s { s.reported.battery with temperature := s.observed.battery.temperature }
    publishMQTT s (s.sensorTopic ++ "/batteryTemperature") (toString s.reported.battery.temperature)
  else s

/-- Charge block of `reportRoombaSensorChanges` (lines 2140-2148). -/
def reportCharge (s : Sys) : Sys :=
  if s.deltas.charge < |(s.observed.battery.charge : Int) - (s.reported.battery.charge : Int)| then
    let s := setReportedBattery s { s.reported.battery with charge := s.observed.battery.charge }
    publishMQTT s (s.sensorTopic ++ "/batteryCharge") (toString s.reported.battery.charge)
  else s

/-- Percent-remaining block of `reportRoombaSensorChanges` (lines 2150-2158);
the field is an Arduino `String` compared through `toInt()`. -/
def reportPercentRemaining (s : Sys) : Sys :=
  if s.deltas.percentRemaining <
      |arduinoToInt s.observed.battery.percentRemaining - arduinoToInt s.reported.battery.percentRemaining| then
    let s := setReportedBattery s
      { s.reported.battery with percentRemaining := s.observed.battery.percentRemaining }
    publishMQTT s (s.sensorTopic ++ "/batteryPercentage") s.reported.battery.percentRemaining
  else s

/-- Charging-state block of `reportRoombaSensorChanges` (lines 2160-2169). -/
def reportChargingState (s : Sys) : Sys :=
  if s.observed.battery.chargingState ≠ s.reported.battery.chargingState then
    let s := setReportedBattery s
      { s.reported.battery with chargingState := s.observed.battery.chargingState }
    publishMQTT s (s.sensorTopic ++ "/chargingState") s.reported.battery.chargingState
  else s

/-- `reportRoombaSensorChanges` (lines 2105-2170): the six blocks in source
order. -/
def reportRoombaSensorChanges (s : Sys) : Sys :=
  reportChargingState (reportPercentRemaining (reportCharge (reportTemperature
    (reportCurrent (reportVoltage s)))))

/-- The cleaning-evidence vote of `toggleCleaningMode` (lines 2178-2210):
one vote per signal, up to 7. -/
def voteForCleaningMode (d : RoombaData) : Nat :=
  (if d.battery.chargingState = "NOT_CHARGING" ∨ d.battery.chargingState = "WAITING" then 1 else 0) +
  (if d.battery.current < -500 then 1 else 0) +
  (if 100 < d.motorCurrent.leftWheel then 1 else 0) +
  (if 100 < d.motorCurrent.rightWheel then 1 else 0) +
  (if 100 < d.motorCurrent.mainBrush then 1 else 0) +
  (if 100 < d.motorCurrent.sideBrush then 1 else 0) +
  (if d.stasis = 1 then 1 else 0)

/-- `beginCleaningMode` (lines 2233-2253). -/
def beginCleaningMode (s : Sys) (now : Nat) : Sys :=
  let s := { s with observed := { s.observed with
    cleaningCycle := { startTime := now, endTime := now, runTime := 0 } } }
  let s := setRunStatus s CLEANING
  { s with observed := { s.observed with odometer := 0 } }

/-- `endCleaningMode` (lines 2256-2277).  `millis()` is monotone within a
run, so the `unsigned long` subtraction is plain truncated subtraction. -/
def endCleaningMode (s : Sys) (now : Nat) : Sys :=
  let s := { s with observed := { s.observed with
    cleaningCycle := { s.observed.cleaningCycle with
      endTime := now
      runTime := now - s.observed.cleaningCycle.startTime } } }
  let s := setRunStatus s IDLING
  let s := publishMQTT s (s.sensorTopic ++ "/runTime") (toString s.observed.cleaningCycle.runTime)
  publishMQTT s (s.sensorTopic ++ "/odometer") (toString s.observed.odometer)

/-- `toggleCleaningMode` (lines 2173-2230): the vote is counted once, then
the two threshold branches run in source order (the second reads the
possibly-updated run status); 2-3 votes fall through both. -/
def toggleCleaningMode (s : Sys) (now : Nat) : Sys :=
  let votes := voteForCleaningMode s.observed
  let s :=
    if 4 ≤ votes ∧ s.observed.runStatus ≠ CLEANING then
      beginCleaningMode s now
    else s
  if votes ≤ 1 ∧ s.observed.runStatus = CLEANING then
    endCleaningMode s now
  else s

/-- `pi * wheelRadius / wheelEncodersPerRevolution` (lines 1174-1176,
2295), the millimetres per encoder tick; float arithmetic modelled over ℚ. -/
def mmPerTick : ℚ := (314159265359 / 100000000000) * 69 / (5088 / 10)

/-- Arduino `round` for a non-negative argument: `(long)(x + 0.5)`. -/
def roundHalfUp (q : ℚ) : Int := ⌊q + 1 / 2⌋

/-- The rounded millimetre distance one `observeEncoders` call adds
(lines 2283-2298): per-wheel deltas, truncated integer average, scaled. -/
def encoderStepDistance (s : Sys) (leftEncoder rightEncoder : Nat) : Int :=
  let distanceLeftEncoder := computeEncoderDistance leftEncoder s.observed.wheels.leftEncoder
  let distanceRightEncoder := computeEncoderDistance rightEncoder s.observed.wheels.rightEncoder
  let averageDistance := (distanceLeftEncoder + distanceRightEncoder) / 2
  roundHalfUp ((averageDistance : ℚ) * mmPerTick)

/-- `observeEncoders` (lines 2280-2307).  The odometer is an
`unsigned long`; increments are at most 27931 mm, far below its range, so it
is modelled without wraparound. -/
def observeEncoders (s : Sys) (leftEncoder rightEncoder : Nat) : Sys :=
  let s := { s with observed := { s.observed with
    odometer := ((s.observed.odometer : Int) + encoderStepDistance s leftEncoder rightEncoder).toNat } }
  { s with observed := { s.observed with
    wheels := { leftEncoder := leftEncoder % 65536, rightEncoder := rightEncoder % 65536 } } }

/-- The field-decode statements of `getRoombaData` (lines 2010-2090):
update the observed data from a valid 26-byte frame.  The two encoder
fields (lines 2063, 2068) accumulate the raw reading into the stored
`uint16_t` cell rather than overwriting it. -/
def observeFrame (o : RoombaData) (buf : List Nat) : RoombaData :=
  { o with
    battery := { o.battery with
      chargingState := decodeChargingState (byteAt buf 3)
      voltage := combineBytesToUnsignedInt (byteAt buf 4) (byteAt buf 5)
      current := combineBytesToSignedInt (byteAt buf 6) (byteAt buf 7)
      temperature := asSigned8 (byteAt buf 8)
      charge := combineBytesToUnsignedInt (byteAt buf 9) (byteAt buf 10)
      capacity := combineBytesToUnsignedInt (byteAt buf 11) (byteAt buf 12) }
    wheels := {
      rightEncoder := (o.wheels.rightEncoder + combineBytesToUnsignedInt (byteAt buf 13) (byteAt buf 14)) % 65536
      leftEncoder := (o.wheels.leftEncoder + combineBytesToUnsignedInt (byteAt buf 15) (byteAt buf 16)) % 65536 }
    motorCurrent := {
      leftWheel := combineBytesToUnsignedInt (byteAt buf 17) (byteAt buf 18)
      rightWheel := combineBytesToUnsignedInt (byteAt buf 19) (byteAt buf 20)
      mainBrush := combineBytesToUnsignedInt (byteAt buf 21) (byteAt buf 22)
      sideBrush := combineBytesToUnsignedInt (byteAt buf 23) (byteAt buf 24) }
    stasis := asSigned8 (byteAt buf 25) }

/-- `getRoombaData` (lines 1916-2102), from the point where the poll
response has been read into `tmpBuffer`.  `buf` is the response; a length
other than 26 takes the early-exit branch (lines 1963-1975). -/
def getRoombaData (s : Sys) (buf : List Nat) (now : Nat) : Sys :=
  if buf.length ≠ 26 then
    let s := { s with lastRetrieved := now }
    setRunStatus s SLEEPING
  else
    let s := if s.observed.runStatus ≠ CLEANING then setRunStatus s IDLING else s
    let s := { s with observed := observeFrame s.observed buf, lastRetrieved := now }
    let s := reportRoombaSensorChanges s
    toggleCleaningMode s now

/-- `commandRoombaWake` (lines 2517-2538): only acts while sleeping; the
physical pin pulse has no software-visible effect beyond the status. -/
def commandRoombaWake (s : Sys) : Sys :=
  if s.observed.runStatus ≠ SLEEPING then s
  else setRunStatus s IDLING

/-- `commandRoombaClean` (lines 2333-2350). -/
def commandRoombaClean (s : Sys) : Sys :=
  let s := if s.observed.runStatus = SLEEPING then commandRoombaWake s else s
  serialWrite s [128, 131, 135]

/-- `commandRoombaDock` (lines 2353-2370). -/
def commandRoombaDock (s : Sys) : Sys :=
  let s := if s.observed.runStatus = SLEEPING then commandRoombaWake s else s
  serialWrite s [128, 131, 143]

/-- `commandRoombaStop` (lines 2373-2392). -/
def commandRoombaStop (s : Sys) : Sys :=
  if s.observed.runStatus ≠ CLEANING then s
  else serialWrite s [128, 131, 133]

/-- `commandRoombaResetSchedule` (lines 2395-2416): opcode then fifteen
zero bytes. -/
def commandRoombaResetSchedule (s : Sys) : Sys :=
  serialWrite s ([128, 167] ++ List.replicate 15 0)

/-- `commandRoombaReboot`, middle revision (lines 2500-2514): it writes the
reboot opcode and touches no state. -/
def commandRoombaReboot (s : Sys) : Sys :=
  serialWrite s [128, 7]

/-! ### Arduino `String` operations used by `commandRoombaSetDayTime` -/

/-- ASCII `tolower`, as applied by Arduino `String::toLowerCase`. -/
def toLowerAscii (c : Char) : Char :=
  if 'A' ≤ c ∧ c ≤ 'Z' then Char.ofNat (c.toNat + 32) else c

/-- Arduino `String::indexOf(char)`: first index, `-1` when absent. -/
def indexOfChar (cs : List Char) (c : Char) : Int :=
  match cs.findIdx? (fun x => x = c) with
  | some i => (i : Int)
  | none => -1

/-- Conversion of an `int` argument to the `unsigned int` parameters of
`String::substring`. -/
def toUInt32Nat (i : Int) : Nat := (i % 4294967296).toNat

/-- Arduino `String::substring(left, right)`: swaps a descending range,
returns `""` when `left` is past the end, clamps `right` to the length, and
yields the characters in `[left, right)`. -/
def substringArduino (cs : List Char) (left right : Nat) : List Char :=
  let lo := if right < left then right else left
  let hi := if right < left then left else right
  if cs.length ≤ lo then []
  else (cs.take (min hi cs.length)).drop lo

/-- Arduino `String::trim`: strip `isspace` characters from both ends. -/
def trimArduino (cs : List Char) : List Char :=
  ((cs.dropWhile (fun c => isSpaceChar c)).reverse.dropWhile (fun c => isSpaceChar c)).reverse

/-- The lowercased weekday field of a `setTime` payload
(lines 2425-2434). -/
def setTimeWeekdayName (payload : String) : List Char :=
  let cs := payload.data.map toLowerAscii
  trimArduino (substringArduino cs (toUInt32Nat 0) (toUInt32Nat (indexOfChar cs ',')))

/-- The hour field of a `setTime` payload (line 2429). -/
def setTimeHour (payload : String) : Int :=
  let cs := payload.data.map toLowerAscii
  atol (trimArduino (substringArduino cs (toUInt32Nat (indexOfChar cs ',' + 1))
    (toUInt32Nat (indexOfChar cs ':'))))

/-- The minute field of a `setTime` payload (line 2430). -/
def setTimeMinute (payload : String) : Int :=
  let cs := payload.data.map toLowerAscii
  atol (trimArduino (substringArduino cs (toUInt32Nat (indexOfChar cs ':' + 1))
    (toUInt32Nat (indexOfChar cs ':' + 3))))

/-- The weekday lookup of `commandRoombaSetDayTime` (lines 2427-2462): the
seven `if` blocks assign to `dayCode`, whose value stays `-1` when no name
matches; the names are mutually exclusive, so the chain below is the net
effect. -/
def setTimeDayCode (payload : String) : Int :=
  let w := setTimeWeekdayName payload
  if w = "sunday".data then 0
  else if w = "monday".data then 1
  else if w = "tuesday".data then 2
  else if w = "wednesday".data then 3
  else if w = "thursday".data then 4
  else if w = "friday".data then 5
  else if w = "saturday".data then 6
  else -1

/-- The bytes `commandRoombaSetDayTime` (lines 2419-2497) writes for a
payload: nothing when one of the three validation blocks returns early,
otherwise the opcode preamble and the three values truncated to
`uint8_t`. -/
def setDayTimeBytes (payload : String) : List Nat :=
  if setTimeDayCode payload = -1 then []
  else if setTimeHour payload < 0 ∨ 24 < setTimeHour payload then []
  else if setTimeMinute payload < 0 ∨ 60 < setTimeMinute payload then []
  else [128, 168, (setTimeDayCode payload % 256).toNat,
        (setTimeHour payload % 256).toNat, (setTimeMinute payload % 256).toNat]

/-- `commandRoombaSetDayTime` as a state transformer: it only emits serial
bytes. -/
def commandRoombaSetDayTime (s : Sys) (payload : String) : Sys :=
  serialWrite s (setDayTimeBytes payload)

/-! ### The third revision's reboot command (for claim C9) -/

/-- The slice of the third revision's `structRoombaData` (lines 2828-2832)
that its reboot handler touches, plus the serial log. -/
structure Rev3State where
  currentStatus : Int
  serialOut : List Nat
  deriving Repr, DecidableEq

/-- `commandRoombaReboot`, third revision (lines 3824-3838).  Its final
statement, `roombaData.currentStatus == SLEEPING;` (line 3836), is an
equality test whose result is discarded — not an assignment — so
`currentStatus` is unchanged. -/
def commandRoombaRebootRev3 (s : Rev3State) : Rev3State :=
  { s with serialOut := s.serialOut ++ [128, 7] }

/-! ### The operations of the engine and the reachable states -/

/-- The entry points through which the middle revision mutates the engine
state: the periodic poll and the seven device-actuation command handlers,
plus the odometry accumulator `observeEncoders` (which no caller in this
revision actually invokes). -/
inductive Op where
  | poll (buf : List Nat) (now : Nat)
  | clean
  | dock
  | stop
  | resetSchedule
  | setDayTime (payload : String)
  | reboot
  | wake
  | observe (leftEncoder rightEncoder : Nat)
  deriving Repr

/-- Apply one operation. -/
def applyOp (op : Op) (s : Sys) : Sys :=
  match op with
  | .poll buf now => getRoombaData s buf now
  | .clean => commandRoombaClean s
  | .dock => commandRoombaDock s
  | .stop => commandRoombaStop s
  | .resetSchedule => commandRoombaResetSchedule s
  | .setDayTime payload => commandRoombaSetDayTime s payload
  | .reboot => commandRoombaReboot s
  | .wake => commandRoombaWake s
  | .observe l r => observeEncoders s l r

/-- Whether an operation is one the middle revision's program actually
invokes: `observeEncoders` is defined but has no call site. -/
def Op.invoked : Op → Prop
  | .observe _ _ => False
  | _ => True

/-- The zero-initialised globals after `setup()` installed the default
reporting deltas; the MQTT sensor topic is configuration. -/
def initialSys (topic : String) : Sys :=
  { observed := {
      runStatus := 0, odometer := 0, stasis := 0
      cleaningCycle := { startTime := 0, endTime := 0, runTime := 0 }
      battery := { voltage := 0, current := 0, temperature := 0, charge := 0,
                   capacity := 0, chargingState := "", percentRemaining := "" }
      motorCurrent := { leftWheel := 0, rightWheel := 0, mainBrush := 0, sideBrush := 0 }
      wheels := { leftEncoder := 0, rightEncoder := 0 } }
    reported := {
      runStatus := 0, odometer := 0, stasis := 0
      cleaningCycle := { startTime := 0, endTime := 0, runTime := 0 }
      battery := { voltage := 0, current := 0, temperature := 0, charge := 0,
                   capacity := 0, chargingState := "", percentRemaining := "" }
      motorCurrent := { leftWheel := 0, rightWheel := 0, mainBrush := 0, sideBrush := 0 }
      wheels := { leftEncoder := 0, rightEncoder := 0 } }
    deltas := defaultDeltas
    sensorTopic := topic
    lastRetrieved := 0
    mqttOut := []
    serialOut := [] }

/-- States the middle revision's program can reach: the initial state under
any configured topic, closed under the operations it invokes. -/
inductive Reachable : Sys → Prop
  | init (topic : String) : Reachable (initialSys topic)
  | step {s : Sys} (op : Op) (hop : op.invoked) (hs : Reachable s) :
      Reachable (applyOp op s)

/-- Modelled from the spec (refinement reference for claim C4 only, not
from the source): a payload matches the documented pattern `weekday,hh:mm` —
a recognized English day name (case-insensitive), a comma, two digits whose
value is in `[0,24]`, a colon, two digits whose value is in `[0,60]`. -/
def specSetTimeValid (p : String) : Bool :=
  let cs := p.data.map toLowerAscii
  ["sunday", "monday", "tuesday", "wednesday", "thursday", "friday",
   "saturday"].any fun d =>
    decide (cs.take d.length = d.data) &&
      match cs.drop d.length with
      | [',', h1, h2, ':', m1, m2] =>
          h1.isDigit && h2.isDigit && m1.isDigit && m2.isDigit &&
          decide ((h1.toNat - 48) * 10 + (h2.toNat - 48) ≤ 24) &&
          decide ((m1.toNat - 48) * 10 + (m2.toNat - 48) ≤ 60)
      | _ => false

/-- A sensor channel with the given topic suffix is published during one
`reportRoombaSensorChanges` call started with an empty outbound log. -/
def publishesChannel (s : Sys) (suffix : String) : Prop :=
  ∃ v, (s.sensorTopic ++ suffix, v) ∈ (reportRoombaSensorChanges s).mqttOut

/-! ## Theorems -/

/-- Distinct suffixes appended to the same topic prefix give distinct
topics. -/
theorem topic_append_ne {t a b : String} (h : a ≠ b) : t ++ a ≠ t ++ b := by
  intro he
  apply h
  apply String.ext
  have hd := congrArg String.data he
  simpa only [String.data_append, List.append_cancel_left_eq] using hd

set_option maxRecDepth 8192 in
/-- C7: the charging-state byte decoder is total: bytes 0-5 map to the six
named states and every other byte maps to UNKNOWN; no input byte fails. -/
theorem C7_chargingState_total (b : Nat) (hb : b ≤ 255) :
    (b = 0 → decodeChargingState b = "NOT_CHARGING") ∧
    (b = 1 → decodeChargingState b = "CHARGING_RECONDITIONING") ∧
    (b = 2 → decodeChargingState b = "CHARGING_FULL") ∧
    (b = 3 → decodeChargingState b = "CHARGING_TRICKLE") ∧
    (b = 4 → decodeChargingState b = "WAITING") ∧
    (b = 5 → decodeChargingState b = "FAULT") ∧
    (5 < b → decodeChargingState b = "UNKNOWN") := by
  have H : ∀ x : Nat, x < 256 →
      (x = 0 → decodeChargingState x = "NOT_CHARGING") ∧
      (x = 1 → decodeChargingState x = "CHARGING_RECONDITIONING") ∧
      (x = 2 → decodeChargingState x = "CHARGING_FULL") ∧
      (x = 3 → decodeChargingState x = "CHARGING_TRICKLE") ∧
      (x = 4 → decodeChargingState x = "WAITING") ∧
      (x = 5 → decodeChargingState x = "FAULT") ∧
      (5 < x → decodeChargingState x = "UNKNOWN") := by decide
  exact H b (by omega)

/-- Closed instance of `C7_chargingState_total` at byte 200 (a value
outside the lookup table). -/
theorem C7_chargingState_total_witness :
    (200 : Nat) ≤ 255 ∧ decodeChargingState 200 = "UNKNOWN" :=
  ⟨by norm_num, (C7_chargingState_total 200 (by norm_num)).2.2.2.2.2.2 (by norm_num)⟩

/-- C8: the spec requires a stationary wheel to yield delta 0 for every
tick value, but for any tick value `v ≥ 32768` the wraparound heuristic
`previous + current > 65535` misfires and the code returns 65535; the
intended value 0 is produced only below 32768. -/
theorem C8_stationaryWheel_eval :
    computeEncoderDistance 32768 32768 = 65535 ∧
    computeEncoderDistance 1000 1000 = 0 := by
  constructor <;> rfl

/-- C2 counterexample: the claim quantifies over all `current`/`previous`
in `0..65535` and asserts the delta is `current − previous` when no
wraparound is detected; at `current = 50`, `previous = 100` the claimed
value is `-50` but the `uint16_t` function returns 65486. -/
theorem C2_counterexample :
    (computeEncoderDistance 50 100 : Int) ≠ 50 - 100 := by decide

/-- C2 (amended): the two branch expressions are computed in `uint16_t`,
so the function returns them reduced modulo 65536; the claimed exact values
are produced whenever they fit in `0..65535` (wraparound branch with
`current ≤ previous`, plain branch with `previous ≤ current`). -/
theorem C2_encoderDelta (currentValue previousValue : Nat)
    (hc : currentValue ≤ 65535) (hp : previousValue ≤ 65535) :
    (computeEncoderDistance currentValue previousValue : Int) =
      (if 65535 < previousValue + currentValue then
        (65535 - (previousValue : Int)) + currentValue
       else (currentValue : Int) - previousValue) % 65536 ∧
    (65535 < previousValue + currentValue → currentValue ≤ previousValue →
      computeEncoderDistance currentValue previousValue =
        (65535 - previousValue) + currentValue) ∧
    (previousValue + currentValue ≤ 65535 → previousValue ≤ currentValue →
      computeEncoderDistance currentValue previousValue =
        currentValue - previousValue) := by
  unfold computeEncoderDistance
  split_ifs with h
  · refine ⟨?_, fun _ hcp => ?_, fun habs _ => absurd habs (by omega)⟩
    · push_cast [Nat.cast_sub hp]
      omega
    · omega
  · refine ⟨?_, fun habs _ => absurd habs h, fun _ hpc => ?_⟩
    · push_cast
      omega
    · omega

/-- Closed instances of `C2_encoderDelta`: the two evaluations named by the
claim. -/
theorem C2_encoderDelta_witness :
    computeEncoderDistance 10 65530 = 15 ∧ computeEncoderDistance 100 50 = 50 :=
  ⟨by
    have h := (C2_encoderDelta 10 65530 (by norm_num) (by norm_num)).2.1
      (by norm_num) (by norm_num)
    simpa using h,
   by
    have h := (C2_encoderDelta 100 50 (by norm_num) (by norm_num)).2.2
      (by norm_num) (by norm_num)
    simpa using h⟩

/-- C9: dispatching reboot emits the opcode bytes 128, 7, but neither
revision forces the run mode to SLEEPING: the middle revision's handler
(lines 2500-2514) never touches the status, and the third revision's
(line 3836) wrote `roombaData.currentStatus == SLEEPING;` — an equality
test, not an assignment — so a reboot issued while CLEANING leaves the
status CLEANING. -/
theorem C9_reboot_eval :
    (commandRoombaRebootRev3 { currentStatus := CLEANING, serialOut := [] }).serialOut
      = [128, 7] ∧
    (commandRoombaRebootRev3 { currentStatus := CLEANING, serialOut := [] }).currentStatus
      = CLEANING ∧
    CLEANING ≠ SLEEPING ∧
    (commandRoombaReboot (initialSys "s")).serialOut = [128, 7] ∧
    (commandRoombaReboot
      { initialSys "s" with
        observed := { (initialSys "s").observed with runStatus := CLEANING } }).observed.runStatus
      = CLEANING := by
  refine ⟨rfl, rfl, by decide, rfl, rfl⟩

/-- The weekday lookup yields `-1` or a code in `0..6`. -/
theorem setTimeDayCode_range (p : String) :
    setTimeDayCode p = -1 ∨ (0 ≤ setTimeDayCode p ∧ setTimeDayCode p ≤ 6) := by
  simp only [setTimeDayCode]
  split_ifs <;> omega

/-- C4 counterexample: the claim (and spec) say any payload violating the
pattern `weekday,hh:mm` (recognized day name, hour in [0,24], minute in
[0,60]) fails validation and emits no bytes; but `"monday,aa:bb"` violates
the pattern (non-numeric hour and minute), yet Arduino `toInt` parses the
fields as 0, validation passes, and five bytes are emitted. -/
theorem C4_counterexample :
    specSetTimeValid "monday,aa:bb" = false ∧
    setDayTimeBytes "monday,aa:bb" = [128, 168, 1, 0, 0] := by decide

/-- C4 (amended): `setTime` validates only that the weekday substring is a
recognized day name and that the hour and minute substrings, parsed with
Arduino `toInt` semantics (non-numeric text parses as 0), lie in [0,24] and
[0,60]; exactly the payloads passing those checks emit bytes, and then the
whole command — never a partial one — is emitted: the opcode preamble
128, 168 followed by day code (Sunday=0..Saturday=6), hour and minute as
three sequential bytes.  The cited examples behave as claimed. -/
theorem C4_setTime (payload : String) :
    (setDayTimeBytes payload ≠ [] ↔
      setTimeDayCode payload ≠ -1 ∧
        0 ≤ setTimeHour payload ∧ setTimeHour payload ≤ 24 ∧
        0 ≤ setTimeMinute payload ∧ setTimeMinute payload ≤ 60) ∧
    (setDayTimeBytes payload ≠ [] →
      ∃ d h m : Nat, setDayTimeBytes payload = [128, 168, d, h, m] ∧
        (d : Int) = setTimeDayCode payload ∧ d ≤ 6 ∧
        (h : Int) = setTimeHour payload ∧ h ≤ 24 ∧
        (m : Int) = setTimeMinute payload ∧ m ≤ 60) ∧
    setDayTimeBytes "funday,10:15" = [] ∧
    setDayTimeBytes "monday,25:00" = [] ∧
    setDayTimeBytes "monday,09:05" = [128, 168, 1, 9, 5] := by
  refine ⟨?_, ?_, by decide, by decide, by decide⟩
  · unfold setDayTimeBytes
    split_ifs with h1 h2 h3 <;> simp_all <;> omega
  · intro hne
    have hrange := setTimeDayCode_range payload
    unfold setDayTimeBytes at hne ⊢
    split_ifs at hne ⊢ with h1 h2 h3
    · exact absurd rfl hne
    · exact absurd rfl hne
    · exact absurd rfl hne
    · push_neg at h2 h3
      have hd : 0 ≤ setTimeDayCode payload ∧ setTimeDayCode payload ≤ 6 := by
        rcases hrange with h | h
        · exact absurd h h1
        · exact h
      refine ⟨(setTimeDayCode payload % 256).toNat,
        (setTimeHour payload % 256).toNat,
        (setTimeMinute payload % 256).toNat, rfl, ?_, ?_, ?_, ?_, ?_, ?_⟩ <;>
        omega

/-- Closed instance of `C4_setTime`: the accepted example emits the full
five-byte command. -/
theorem C4_setTime_witness :
    ∃ d h m : Nat, setDayTimeBytes "monday,09:05" = [128, 168, d, h, m] ∧
      (d : Int) = setTimeDayCode "monday,09:05" ∧ d ≤ 6 ∧
      (h : Int) = setTimeHour "monday,09:05" ∧ h ≤ 24 ∧
      (m : Int) = setTimeMinute "monday,09:05" ∧ m ≤ 60 :=
  (C4_setTime "monday,09:05").2.1 (by decide)

/-! ### Helper lemmas about the state operations -/

@[simp]
theorem publishMQTT_observed (s : Sys) (t p : String) :
    (publishMQTT s t p).observed = s.observed := rfl

@[simp]
theorem publishMQTT_reported (s : Sys) (t p : String) :
    (publishMQTT s t p).reported = s.reported := rfl

@[simp]
theorem serialWrite_observed (s : Sys) (b : List Nat) :
    (serialWrite s b).observed = s.observed := rfl

@[simp]
theorem serialWrite_reported (s : Sys) (b : List Nat) :
    (serialWrite s b).reported = s.reported := rfl

/-- Each cleaning-evidence signal contributes at most one vote. -/
theorem voteForCleaningMode_le_seven (d : RoombaData) :
    voteForCleaningMode d ≤ 7 := by
  unfold voteForCleaningMode
  split_ifs <;> norm_num

/-- `setRunStatus` leaves the observed status equal to its argument
whenever the two copies agree beforehand. -/
theorem setRunStatus_runStatus (s : Sys) (r : Int)
    (hls : s.observed.runStatus = s.reported.runStatus) :
    (setRunStatus s r).observed.runStatus = r := by
  unfold setRunStatus
  split_ifs with h
  · rfl
  · push_neg at h
    rw [hls, h]

/-- `setRunStatus` keeps the two status copies in lockstep. -/
theorem setRunStatus_lockstep (s : Sys) (r : Int)
    (hls : s.observed.runStatus = s.reported.runStatus) :
    (setRunStatus s r).observed.runStatus = (setRunStatus s r).reported.runStatus := by
  unfold setRunStatus
  split_ifs with h
  · rfl
  · exact hls

/-- Entering cleaning mode sets the observed status to CLEANING, provided
the reported copy was not already CLEANING. -/
theorem beginCleaningMode_runStatus (s : Sys) (now : Nat)
    (hne : s.reported.runStatus ≠ CLEANING) :
    (beginCleaningMode s now).observed.runStatus = CLEANING := by
  simp only [beginCleaningMode, setRunStatus]
  split_ifs with h
  · rfl
  · push_neg at h
    exact absurd h.symm hne

/-- Ending cleaning mode sets the observed status to IDLING, provided the
reported copy was not already IDLING. -/
theorem endCleaningMode_runStatus (s : Sys) (now : Nat)
    (hne : s.reported.runStatus ≠ IDLING) :
    (endCleaningMode s now).observed.runStatus = IDLING := by
  simp only [endCleaningMode, setRunStatus]
  split_ifs with h
  · rfl
  · push_neg at h
    exact absurd h.symm hne

/-- C1: after a decoded frame, the vote count is at most 7, and the
hysteresis thresholds act as specified: at least 4 votes while not CLEANING
enters CLEANING, at most 1 vote while CLEANING drops to IDLING, and 2-3
votes leave the run mode unchanged. -/
theorem C1_voteThresholds (s : Sys) (now : Nat)
    (hls : s.observed.runStatus = s.reported.runStatus) :
    voteForCleaningMode s.observed ≤ 7 ∧
    (4 ≤ voteForCleaningMode s.observed → s.observed.runStatus ≠ CLEANING →
      (toggleCleaningMode s now).observed.runStatus = CLEANING) ∧
    (voteForCleaningMode s.observed ≤ 1 → s.observed.runStatus = CLEANING →
      (toggleCleaningMode s now).observed.runStatus = IDLING) ∧
    (2 ≤ voteForCleaningMode s.observed → voteForCleaningMode s.observed ≤ 3 →
      (toggleCleaningMode s now).observed.runStatus = s.observed.runStatus) := by
  refine ⟨voteForCleaningMode_le_seven s.observed, fun h4 hne => ?_,
    fun h1 hcl => ?_, fun hlo hhi => ?_⟩
  · simp only [toggleCleaningMode]
    split_ifs with hc1 hc2 hc2
    · exact absurd hc2.1 (by omega)
    · exact beginCleaningMode_runStatus s now (by rw [← hls]; exact hne)
    · exact absurd ⟨h4, hne⟩ hc1
    · exact absurd ⟨h4, hne⟩ hc1
  · simp only [toggleCleaningMode]
    split_ifs with hc1 hc2 hc2
    · exact absurd hc1.1 (by omega)
    · exact absurd hc1.1 (by omega)
    · exact endCleaningMode_runStatus s now (by rw [← hls, hcl]; decide)
    · exact absurd ⟨h1, hcl⟩ hc2
  · simp only [toggleCleaningMode]
    split_ifs with hc1 hc2 hc2
    · exact absurd hc1.1 (by omega)
    · exact absurd hc1.1 (by omega)
    · exact absurd hc2.1 (by omega)
    · rfl

/-- Closed instance of `C1_voteThresholds`: a state with exactly 4 of the
7 signals asserted (charging state, battery discharge, both wheel motors)
moves from IDLING to CLEANING. -/
theorem C1_voteThresholds_witness :
    voteForCleaningMode
      { runStatus := IDLING, odometer := 0, stasis := 0
        cleaningCycle := { startTime := 0, endTime := 0, runTime := 0 }
        battery := { voltage := 0, current := -600, temperature := 0, charge := 0,
                     capacity := 0, chargingState := "NOT_CHARGING", percentRemaining := "" }
        motorCurrent := { leftWheel := 200, rightWheel := 200, mainBrush := 0, sideBrush := 0 }
        wheels := { leftEncoder := 0, rightEncoder := 0 } } = 4 ∧
    (toggleCleaningMode
      { initialSys "t" with
        observed := { (initialSys "t").observed with
          runStatus := IDLING
          battery := { (initialSys "t").observed.battery with
            current := -600, chargingState := "NOT_CHARGING" }
          motorCurrent := { (initialSys "t").observed.motorCurrent with
            leftWheel := 200, rightWheel := 200 } }
        reported := { (initialSys "t").reported with runStatus := IDLING } }
      5).observed.runStatus = CLEANING := by
  constructor
  · decide
  · exact (C1_voteThresholds _ 5 (by decide)).2.1 (by decide) (by decide)

/-! ### Projection lemmas: what each operation leaves untouched -/

@[simp]
theorem setRunStatus_observed_odometer (s : Sys) (r : Int) :
    (setRunStatus s r).observed.odometer = s.observed.odometer := by
  unfold setRunStatus
  split_ifs <;> rfl

@[simp]
theorem setRunStatus_observed_wheels (s : Sys) (r : Int) :
    (setRunStatus s r).observed.wheels = s.observed.wheels := by
  unfold setRunStatus
  split_ifs <;> rfl

@[simp]
theorem setRunStatus_observed_battery (s : Sys) (r : Int) :
    (setRunStatus s r).observed.battery = s.observed.battery := by
  unfold setRunStatus
  split_ifs <;> rfl

@[simp]
theorem setRunStatus_observed_motorCurrent (s : Sys) (r : Int) :
    (setRunStatus s r).observed.motorCurrent = s.observed.motorCurrent := by
  unfold setRunStatus
  split_ifs <;> rfl

@[simp]
theorem setRunStatus_observed_stasis (s : Sys) (r : Int) :
    (setRunStatus s r).observed.stasis = s.observed.stasis := by
  unfold setRunStatus
  split_ifs <;> rfl

@[simp]
theorem setRunStatus_observed_cleaningCycle (s : Sys) (r : Int) :
    (setRunStatus s r).observed.cleaningCycle = s.observed.cleaningCycle := by
  unfold setRunStatus
  split_ifs <;> rfl

@[simp]
theorem setRunStatus_reported_battery (s : Sys) (r : Int) :
    (setRunStatus s r).reported.battery = s.reported.battery := by
  unfold setRunStatus
  split_ifs <;> rfl

@[simp]
theorem reportVoltage_observed (s : Sys) : (reportVoltage s).observed = s.observed := by
  unfold reportVoltage
  split_ifs <;> rfl

@[simp]
theorem reportCurrent_observed (s : Sys) : (reportCurrent s).observed = s.observed := by
  unfold reportCurrent
  split_ifs <;> rfl

@[simp]
theorem reportTemperature_observed (s : Sys) :
    (reportTemperature s).observed = s.observed := by
  unfold reportTemperature
  split_ifs <;> rfl

@[simp]
theorem reportCharge_observed (s : Sys) : (reportCharge s).observed = s.observed := by
  unfold reportCharge
  split_ifs <;> rfl

@[simp]
theorem reportPercentRemaining_observed (s : Sys) :
    (reportPercentRemaining s).observed = s.observed := by
  unfold reportPercentRemaining
  split_ifs <;> rfl

@[simp]
theorem reportChargingState_observed (s : Sys) :
    (reportChargingState s).observed = s.observed := by
  unfold reportChargingState
  split_ifs <;> rfl

/-- The telemetry filter never touches the observed snapshot. -/
@[simp]
theorem reportRoombaSensorChanges_observed (s : Sys) :
    (reportRoombaSensorChanges s).observed = s.observed := by
  unfold reportRoombaSensorChanges
  simp

@[simp]
theorem reportVoltage_reported_runStatus (s : Sys) :
    (reportVoltage s).reported.runStatus = s.reported.runStatus := by
  unfold reportVoltage setReportedBattery
  split_ifs <;> rfl

@[simp]
theorem reportCurrent_reported_runStatus (s : Sys) :
    (reportCurrent s).reported.runStatus = s.reported.runStatus := by
  unfold reportCurrent setReportedBattery
  split_ifs <;> rfl

@[simp]
theorem reportTemperature_reported_runStatus (s : Sys) :
    (reportTemperature s).reported.runStatus = s.reported.runStatus := by
  unfold reportTemperature setReportedBattery
  split_ifs <;> rfl

@[simp]
theorem reportCharge_reported_runStatus (s : Sys) :
    (reportCharge s).reported.runStatus = s.reported.runStatus := by
  unfold reportCharge setReportedBattery
  split_ifs <;> rfl

@[simp]
theorem reportPercentRemaining_reported_runStatus (s : Sys) :
    (reportPercentRemaining s).reported.runStatus = s.reported.runStatus := by
  unfold reportPercentRemaining setReportedBattery
  split_ifs <;> rfl

@[simp]
theorem reportChargingState_reported_runStatus (s : Sys) :
    (reportChargingState s).reported.runStatus = s.reported.runStatus := by
  unfold reportChargingState setReportedBattery
  split_ifs <;> rfl

/-- The telemetry filter never touches the reported run status. -/
@[simp]
theorem reportRoombaSensorChanges_reported_runStatus (s : Sys) :
    (reportRoombaSensorChanges s).reported.runStatus = s.reported.runStatus := by
  unfold reportRoombaSensorChanges
  simp

/-- Entering cleaning mode zeroes the odometer. -/
@[simp]
theorem beginCleaningMode_odometer (s : Sys) (now : Nat) :
    (beginCleaningMode s now).observed.odometer = 0 := rfl

/-- Entering cleaning mode records the cycle start and clears the end and
duration. -/
theorem beginCleaningMode_cleaningCycle (s : Sys) (now : Nat) :
    (beginCleaningMode s now).observed.cleaningCycle =
      { startTime := now, endTime := now, runTime := 0 } := by
  unfold beginCleaningMode
  simp

@[simp]
theorem beginCleaningMode_wheels (s : Sys) (now : Nat) :
    (beginCleaningMode s now).observed.wheels = s.observed.wheels := by
  unfold beginCleaningMode
  simp

@[simp]
theorem endCleaningMode_odometer (s : Sys) (now : Nat) :
    (endCleaningMode s now).observed.odometer = s.observed.odometer := by
  unfold endCleaningMode
  simp

@[simp]
theorem endCleaningMode_wheels (s : Sys) (now : Nat) :
    (endCleaningMode s now).observed.wheels = s.observed.wheels := by
  unfold endCleaningMode
  simp

/-- One toggle either leaves the odometer alone or (on a CLEANING entry)
zeroes it. -/
theorem toggleCleaningMode_odometer (s : Sys) (now : Nat) :
    (toggleCleaningMode s now).observed.odometer = s.observed.odometer ∨
      (toggleCleaningMode s now).observed.odometer = 0 := by
  simp only [toggleCleaningMode]
  split_ifs <;> simp

@[simp]
theorem toggleCleaningMode_wheels (s : Sys) (now : Nat) :
    (toggleCleaningMode s now).observed.wheels = s.observed.wheels := by
  simp only [toggleCleaningMode]
  split_ifs <;> simp

@[simp]
theorem observeFrame_odometer (o : RoombaData) (buf : List Nat) :
    (observeFrame o buf).odometer = o.odometer := rfl

@[simp]
theorem observeFrame_runStatus (o : RoombaData) (buf : List Nat) :
    (observeFrame o buf).runStatus = o.runStatus := rfl

@[simp]
theorem observeFrame_cleaningCycle (o : RoombaData) (buf : List Nat) :
    (observeFrame o buf).cleaningCycle = o.cleaningCycle := rfl

/-- Any poll leaves the odometer alone or zeroes it. -/
theorem getRoombaData_odometer (s : Sys) (buf : List Nat) (now : Nat) :
    (getRoombaData s buf now).observed.odometer = s.observed.odometer ∨
      (getRoombaData s buf now).observed.odometer = 0 := by
  simp only [getRoombaData]
  split_ifs with hlen hcl
  · left
    simp
  · rcases toggleCleaningMode_odometer
      (reportRoombaSensorChanges
        { setRunStatus s IDLING with
          observed := observeFrame (setRunStatus s IDLING).observed buf
          lastRetrieved := now }) now with h | h
    · left
      rw [h]
      simp
    · right
      exact h
  · rcases toggleCleaningMode_odometer
      (reportRoombaSensorChanges
        { s with observed := observeFrame s.observed buf, lastRetrieved := now })
      now with h | h
    · left
      rw [h]
      simp
    · right
      exact h

@[simp]
theorem commandRoombaWake_observed_odometer (s : Sys) :
    (commandRoombaWake s).observed.odometer = s.observed.odometer := by
  unfold commandRoombaWake
  split_ifs <;> simp

@[simp]
theorem commandRoombaClean_observed_odometer (s : Sys) :
    (commandRoombaClean s).observed.odometer = s.observed.odometer := by
  unfold commandRoombaClean
  split_ifs <;> simp

@[simp]
theorem commandRoombaDock_observed_odometer (s : Sys) :
    (commandRoombaDock s).observed.odometer = s.observed.odometer := by
  unfold commandRoombaDock
  split_ifs <;> simp

@[simp]
theorem commandRoombaStop_observed_odometer (s : Sys) :
    (commandRoombaStop s).observed.odometer = s.observed.odometer := by
  unfold commandRoombaStop
  split_ifs <;> simp

/-- The odometer of every state the middle revision's program can reach is
zero: nothing in this revision ever calls `observeEncoders`, and each
CLEANING entry re-zeroes the field. -/
theorem reachable_odometer_zero {s : Sys} (hs : Reachable s) :
    s.observed.odometer = 0 := by
  induction hs with
  | init topic => rfl
  | step op hop hs ih =>
      cases op with
      | poll buf now =>
          rcases getRoombaData_odometer _ buf now with h | h
          · rw [applyOp, h, ih]
          · rw [applyOp, h]
      | clean => simpa [applyOp] using ih
      | dock => simpa [applyOp] using ih
      | stop => simpa [applyOp] using ih
      | resetSchedule => simpa [applyOp, commandRoombaResetSchedule] using ih
      | setDayTime p => simpa [applyOp, commandRoombaSetDayTime] using ih
      | reboot => simpa [applyOp, commandRoombaReboot] using ih
      | wake => simpa [applyOp] using ih
      | observe l r => exact absurd hop (by simp [Op.invoked])

/-- One toggle either leaves the odometer alone, or performs a CLEANING
entry and zeroes it. -/
theorem toggleCleaningMode_cases (s : Sys) (now : Nat)
    (hls : s.observed.runStatus = s.reported.runStatus) :
    (toggleCleaningMode s now).observed.odometer = s.observed.odometer ∨
      (s.observed.runStatus ≠ CLEANING ∧
       (toggleCleaningMode s now).observed.runStatus = CLEANING ∧
       (toggleCleaningMode s now).observed.odometer = 0) := by
  simp only [toggleCleaningMode]
  split_ifs with hc1 hc2 hc2
  · exact absurd hc2.1 (by omega)
  · right
    exact ⟨hc1.2, beginCleaningMode_runStatus s now (by rw [← hls]; exact hc1.2), by simp⟩
  · left
    simp
  · left
    rfl

/-- A poll either leaves the odometer alone, or performs a CLEANING entry
and zeroes it. -/
theorem getRoombaData_cases (s : Sys) (buf : List Nat) (now : Nat)
    (hls : s.observed.runStatus = s.reported.runStatus) :
    (getRoombaData s buf now).observed.odometer = s.observed.odometer ∨
      (s.observed.runStatus ≠ CLEANING ∧
       (getRoombaData s buf now).observed.runStatus = CLEANING ∧
       (getRoombaData s buf now).observed.odometer = 0) := by
  simp only [getRoombaData]
  split_ifs with hlen hcl
  · left
    simp
  · have hls2 : (setRunStatus s IDLING).observed.runStatus =
        (setRunStatus s IDLING).reported.runStatus := setRunStatus_lockstep s IDLING hls
    set t := reportRoombaSensorChanges
      { setRunStatus s IDLING with
        observed := observeFrame (setRunStatus s IDLING).observed buf
        lastRetrieved := now } with ht
    have hlsT : t.observed.runStatus = t.reported.runStatus := by
      rw [ht]
      simpa using hls2
    rcases toggleCleaningMode_cases t now hlsT with h | ⟨hne, hCl, h0⟩
    · left
      rw [h, ht]
      simp
    · right
      exact ⟨hcl, hCl, h0⟩
  · push_neg at hcl
    set t := reportRoombaSensorChanges
      { s with observed := observeFrame s.observed buf, lastRetrieved := now } with ht
    have hlsT : t.observed.runStatus = t.reported.runStatus := by
      rw [ht]
      simpa using hls
    rcases toggleCleaningMode_cases t now hlsT with h | ⟨hne, hCl, h0⟩
    · left
      rw [h, ht]
      simp
    · exfalso
      apply hne
      rw [ht]
      simpa using hcl

/-- The rounded per-step odometry increment is never negative. -/
theorem encoderStepDistance_nonneg (s : Sys) (leftEncoder rightEncoder : Nat) :
    0 ≤ encoderStepDistance s leftEncoder rightEncoder := by
  unfold encoderStepDistance roundHalfUp
  rw [Int.le_floor]
  have hmm : (0 : ℚ) ≤ mmPerTick := by
    unfold mmPerTick
    norm_num
  push_cast
  positivity

/-- C10: in the richest revision a successful 26-byte poll leaves the
cumulative odometer unchanged — `getRoombaData` never invokes the odometry
accumulator (nothing reachable does, so the odometer is identically 0) and
instead adds each raw encoder reading into the stored `uint16_t` encoder
cells, a running sum. -/
theorem C10_pollOdometerUnchanged (s : Sys) (hs : Reachable s)
    (buf : List Nat) (now : Nat) (hlen : buf.length = 26) :
    (getRoombaData s buf now).observed.odometer = s.observed.odometer ∧
    (getRoombaData s buf now).observed.wheels.rightEncoder =
      (s.observed.wheels.rightEncoder +
        combineBytesToUnsignedInt (byteAt buf 13) (byteAt buf 14)) % 65536 ∧
    (getRoombaData s buf now).observed.wheels.leftEncoder =
      (s.observed.wheels.leftEncoder +
        combineBytesToUnsignedInt (byteAt buf 15) (byteAt buf 16)) % 65536 := by
  have hwheels : (getRoombaData s buf now).observed.wheels =
      (observeFrame s.observed buf).wheels := by
    simp only [getRoombaData]
    rw [if_neg (by simp [hlen])]
    split_ifs with hcl <;> simp [observeFrame]
  refine ⟨?_, ?_, ?_⟩
  · rcases getRoombaData_odometer s buf now with h | h
    · exact h
    · rw [h, reachable_odometer_zero hs]
  · rw [hwheels]
    rfl
  · rw [hwheels]
    rfl

/-- Closed instance of `C10_pollOdometerUnchanged` at the initial state and
an all-zero 26-byte frame. -/
theorem C10_pollOdometerUnchanged_witness :
    (getRoombaData (initialSys "t") (List.replicate 26 0) 1).observed.odometer =
      (initialSys "t").observed.odometer ∧
    (getRoombaData (initialSys "t") (List.replicate 26 0) 1).observed.wheels.rightEncoder =
      ((initialSys "t").observed.wheels.rightEncoder +
        combineBytesToUnsignedInt (byteAt (List.replicate 26 0) 13)
          (byteAt (List.replicate 26 0) 14)) % 65536 ∧
    (getRoombaData (initialSys "t") (List.replicate 26 0) 1).observed.wheels.leftEncoder =
      ((initialSys "t").observed.wheels.leftEncoder +
        combineBytesToUnsignedInt (byteAt (List.replicate 26 0) 15)
          (byteAt (List.replicate 26 0) 16)) % 65536 :=
  C10_pollOdometerUnchanged (initialSys "t") (Reachable.init "t")
    (List.replicate 26 0) 1 (by simp)

/-- C6: a poll response whose byte count is not 26 produces no sensor
readings (observed and reported telemetry are untouched), forces the run
mode to SLEEPING, and leaves the odometer unchanged. -/
theorem C6_shortFrame (s : Sys) (buf : List Nat) (now : Nat)
    (hlen : buf.length ≠ 26)
    (hls : s.observed.runStatus = s.reported.runStatus) :
    (getRoombaData s buf now).observed.battery = s.observed.battery ∧
    (getRoombaData s buf now).reported.battery = s.reported.battery ∧
    (getRoombaData s buf now).observed.wheels = s.observed.wheels ∧
    (getRoombaData s buf now).observed.motorCurrent = s.observed.motorCurrent ∧
    (getRoombaData s buf now).observed.stasis = s.observed.stasis ∧
    (getRoombaData s buf now).observed.odometer = s.observed.odometer ∧
    (getRoombaData s buf now).observed.runStatus = SLEEPING := by
  simp only [getRoombaData]
  rw [if_pos hlen]
  exact ⟨by simp, by simp, by simp, by simp, by simp, by simp,
    setRunStatus_runStatus _ SLEEPING hls⟩

/-- Closed instance of `C6_shortFrame` on a 3-byte response. -/
theorem C6_shortFrame_witness :
    (getRoombaData (initialSys "t") [1, 2, 3] 7).observed.battery =
      (initialSys "t").observed.battery ∧
    (getRoombaData (initialSys "t") [1, 2, 3] 7).observed.odometer =
      (initialSys "t").observed.odometer ∧
    (getRoombaData (initialSys "t") [1, 2, 3] 7).observed.runStatus = SLEEPING :=
  ⟨(C6_shortFrame (initialSys "t") [1, 2, 3] 7 (by simp) rfl).1,
   (C6_shortFrame (initialSys "t") [1, 2, 3] 7 (by simp) rfl).2.2.2.2.2.1,
   (C6_shortFrame (initialSys "t") [1, 2, 3] 7 (by simp) rfl).2.2.2.2.2.2⟩

/-- C5: on every transition into CLEANING the odometer is reset to 0 with
the cycle start recorded and end/duration cleared; no operation other than
a CLEANING entry ever decreases the odometer; and each odometry update adds
a non-negative rounded distance, so the odometer never decreases between
CLEANING entries. -/
theorem C5_odometerDiscipline (s : Sys) (now leftEncoder rightEncoder : Nat)
    (op : Op) (hls : s.observed.runStatus = s.reported.runStatus) :
    ((beginCleaningMode s now).observed.odometer = 0 ∧
     (beginCleaningMode s now).observed.cleaningCycle =
       { startTime := now, endTime := now, runTime := 0 }) ∧
    (0 ≤ encoderStepDistance s leftEncoder rightEncoder ∧
     (observeEncoders s leftEncoder rightEncoder).observed.odometer =
       ((s.observed.odometer : Int) +
         encoderStepDistance s leftEncoder rightEncoder).toNat ∧
     s.observed.odometer ≤
       (observeEncoders s leftEncoder rightEncoder).observed.odometer) ∧
    ((applyOp op s).observed.odometer < s.observed.odometer →
      s.observed.runStatus ≠ CLEANING ∧
      (applyOp op s).observed.runStatus = CLEANING ∧
      (applyOp op s).observed.odometer = 0) := by
  have hstep := encoderStepDistance_nonneg s leftEncoder rightEncoder
  refine ⟨⟨beginCleaningMode_odometer s now, beginCleaningMode_cleaningCycle s now⟩,
    ⟨hstep, rfl, ?_⟩, fun hlt => ?_⟩
  · show s.observed.odometer ≤
      ((s.observed.odometer : Int) + encoderStepDistance s leftEncoder rightEncoder).toNat
    omega
  · cases op with
    | poll buf pnow =>
        rcases getRoombaData_cases s buf pnow hls with h | h
        · exact absurd hlt (by rw [applyOp] at *; omega)
        · exact h
    | clean => exact absurd hlt (by simp [applyOp])
    | dock => exact absurd hlt (by simp [applyOp])
    | stop => exact absurd hlt (by simp [applyOp])
    | resetSchedule => exact absurd hlt (by simp [applyOp, commandRoombaResetSchedule])
    | setDayTime p => exact absurd hlt (by simp [applyOp, commandRoombaSetDayTime])
    | reboot => exact absurd hlt (by simp [applyOp, commandRoombaReboot])
    | wake => exact absurd hlt (by simp [applyOp])
    | observe l r =>
        refine absurd hlt ?_
        have : (applyOp (Op.observe l r) s).observed.odometer =
            ((s.observed.odometer : Int) + encoderStepDistance s l r).toNat := rfl
        have hnn := encoderStepDistance_nonneg s l r
        omega

/-- Closed instance of `C5_odometerDiscipline` at the initial state, a
stop command and encoder readings (3, 3). -/
theorem C5_odometerDiscipline_witness :
    ((beginCleaningMode (initialSys "t") 5).observed.odometer = 0 ∧
     (beginCleaningMode (initialSys "t") 5).observed.cleaningCycle =
       { startTime := 5, endTime := 5, runTime := 0 }) ∧
    (0 ≤ encoderStepDistance (initialSys "t") 3 3 ∧
     (observeEncoders (initialSys "t") 3 3).observed.odometer =
       (((initialSys "t").observed.odometer : Int) +
         encoderStepDistance (initialSys "t") 3 3).toNat ∧
     (initialSys "t").observed.odometer ≤
       (observeEncoders (initialSys "t") 3 3).observed.odometer) ∧
    ((applyOp Op.stop (initialSys "t")).observed.odometer <
        (initialSys "t").observed.odometer →
      (initialSys "t").observed.runStatus ≠ CLEANING ∧
      (applyOp Op.stop (initialSys "t")).observed.runStatus = CLEANING ∧
      (applyOp Op.stop (initialSys "t")).observed.odometer = 0) :=
  C5_odometerDiscipline (initialSys "t") 5 3 3 Op.stop rfl

/-! ### Characterisation of the telemetry filter stages -/

@[simp]
theorem reportVoltage_mqtt (s : Sys) :
    (reportVoltage s).mqttOut = s.mqttOut ++
      (if s.deltas.voltage <
          |(s.observed.battery.voltage : Int) - (s.reported.battery.voltage : Int)| then
        [(s.sensorTopic ++ "/batteryVoltage", toString s.observed.battery.voltage)]
       else []) := by
  unfold reportVoltage
  split_ifs <;> simp [publishMQTT, setReportedBattery]

@[simp]
theorem reportVoltage_reported_battery (s : Sys) :
    (reportVoltage s).reported.battery =
      (if s.deltas.voltage <
          |(s.observed.battery.voltage : Int) - (s.reported.battery.voltage : Int)| then
        { s.reported.battery with voltage := s.observed.battery.voltage }
       else s.reported.battery) := by
  unfold reportVoltage
  split_ifs <;> rfl

@[simp]
theorem reportVoltage_deltas (s : Sys) : (reportVoltage s).deltas = s.deltas := by
  unfold reportVoltage
  split_ifs <;> rfl

@[simp]
theorem reportVoltage_sensorTopic (s : Sys) :
    (reportVoltage s).sensorTopic = s.sensorTopic := by
  unfold reportVoltage
  split_ifs <;> rfl

@[simp]
theorem reportCurrent_mqtt (s : Sys) :
    (reportCurrent s).mqttOut = s.mqttOut ++
      (if s.deltas.current <
          |s.observed.battery.current - s.reported.battery.current| then
        [(s.sensorTopic ++ "/batteryCurrent", toString s.observed.battery.current)]
       else []) := by
  unfold reportCurrent
  split_ifs <;> simp [publishMQTT, setReportedBattery]

@[simp]
theorem reportCurrent_reported_battery (s : Sys) :
    (reportCurrent s).reported.battery =
      (if s.deltas.current <
          |s.observed.battery.current - s.reported.battery.current| then
        { s.reported.battery with current := s.observed.battery.current }
       else s.reported.battery) := by
  unfold reportCurrent
  split_ifs <;> rfl

@[simp]
theorem reportCurrent_deltas (s : Sys) : (reportCurrent s).deltas = s.deltas := by
  unfold reportCurrent
  split_ifs <;> rfl

@[simp]
theorem reportCurrent_sensorTopic (s : Sys) :
    (reportCurrent s).sensorTopic = s.sensorTopic := by
  unfold reportCurrent
  split_ifs <;> rfl

@[simp]
theorem reportTemperature_mqtt (s : Sys) :
    (reportTemperature s).mqttOut = s.mqttOut ++
      (if s.deltas.temperature <
          |s.observed.battery.temperature - s.reported.battery.temperature| then
        [(s.sensorTopic ++ "/batteryTemperature",
          toString s.observed.battery.temperature)]
       else []) := by
  unfold reportTemperature
  split_ifs <;> simp [publishMQTT, setReportedBattery]

@[simp]
theorem reportTemperature_reported_battery (s : Sys) :
    (reportTemperature s).reported.battery =
      (if s.deltas.temperature <
          |s.observed.battery.temperature - s.reported.battery.temperature| then
        { s.reported.battery with temperature := s.observed.battery.temperature }
       else s.reported.battery) := by
  unfold reportTemperature
  split_ifs <;> rfl

@[simp]
theorem reportTemperature_deltas (s : Sys) :
    (reportTemperature s).deltas = s.deltas := by
  unfold reportTemperature
  split_ifs <;> rfl

@[simp]
theorem reportTemperature_sensorTopic (s : Sys) :
    (reportTemperature s).sensorTopic = s.sensorTopic := by
  unfold reportTemperature
  split_ifs <;> rfl

@[simp]
theorem reportCharge_mqtt (s : Sys) :
    (reportCharge s).mqttOut = s.mqttOut ++
      (if s.deltas.charge <
          |(s.observed.battery.charge : Int) - (s.reported.battery.charge : Int)| then
        [(s.sensorTopic ++ "/batteryCharge", toString s.observed.battery.charge)]
       else []) := by
  unfold reportCharge
  split_ifs <;> simp [publishMQTT, setReportedBattery]

@[simp]
theorem reportCharge_reported_battery (s : Sys) :
    (reportCharge s).reported.battery =
      (if s.deltas.charge <
          |(s.observed.battery.charge : Int) - (s.reported.battery.charge : Int)| then
        { s.reported.battery with charge := s.observed.battery.charge }
       else s.reported.battery) := by
  unfold reportCharge
  split_ifs <;> rfl

@[simp]
theorem reportCharge_deltas (s : Sys) : (reportCharge s).deltas = s.deltas := by
  unfold reportCharge
  split_ifs <;> rfl

@[simp]
theorem reportCharge_sensorTopic (s : Sys) :
    (reportCharge s).sensorTopic = s.sensorTopic := by
  unfold reportCharge
  split_ifs <;> rfl

@[simp]
theorem reportPercentRemaining_mqtt (s : Sys) :
    (reportPercentRemaining s).mqttOut = s.mqttOut ++
      (if s.deltas.percentRemaining <
          |arduinoToInt s.observed.battery.percentRemaining -
            arduinoToInt s.reported.battery.percentRemaining| then
        [(s.sensorTopic ++ "/batteryPercentage", s.observed.battery.percentRemaining)]
       else []) := by
  unfold reportPercentRemaining
  split_ifs <;> simp [publishMQTT, setReportedBattery]

@[simp]
theorem reportPercentRemaining_reported_battery (s : Sys) :
    (reportPercentRemaining s).reported.battery =
      (if s.deltas.percentRemaining <
          |arduinoToInt s.observed.battery.percentRemaining -
            arduinoToInt s.reported.battery.percentRemaining| then
        { s.reported.battery with
          percentRemaining := s.observed.battery.percentRemaining }
       else s.reported.battery) := by
  unfold reportPercentRemaining
  split_ifs <;> rfl

@[simp]
theorem reportPercentRemaining_deltas (s : Sys) :
    (reportPercentRemaining s).deltas = s.deltas := by
  unfold reportPercentRemaining
  split_ifs <;> rfl

@[simp]
theorem reportPercentRemaining_sensorTopic (s : Sys) :
    (reportPercentRemaining s).sensorTopic = s.sensorTopic := by
  unfold reportPercentRemaining
  split_ifs <;> rfl

@[simp]
theorem reportChargingState_mqtt (s : Sys) :
    (reportChargingState s).mqttOut = s.mqttOut ++
      (if s.observed.battery.chargingState ≠ s.reported.battery.chargingState then
        [(s.sensorTopic ++ "/chargingState", s.observed.battery.chargingState)]
       else []) := by
  unfold reportChargingState
  split_ifs <;> simp [publishMQTT, setReportedBattery]

@[simp]
theorem reportChargingState_reported_battery (s : Sys) :
    (reportChargingState s).reported.battery =
      (if s.observed.battery.chargingState ≠ s.reported.battery.chargingState then
        { s.reported.battery with
          chargingState := s.observed.battery.chargingState }
       else s.reported.battery) := by
  unfold reportChargingState
  split_ifs <;> rfl

@[simp]
theorem reportChargingState_deltas (s : Sys) :
    (reportChargingState s).deltas = s.deltas := by
  unfold reportChargingState
  split_ifs <;> rfl

@[simp]
theorem reportChargingState_sensorTopic (s : Sys) :
    (reportChargingState s).sensorTopic = s.sensorTopic := by
  unfold reportChargingState
  split_ifs <;> rfl

/-- Membership in a conditional singleton block. -/
theorem mem_ite_nil {α : Type} {c : Prop} [Decidable c] {l : List α} {a : α} :
    (a ∈ if c then l else []) ↔ c ∧ a ∈ l := by
  split_ifs with h <;> simp [h]

/-- The messages one `reportRoombaSensorChanges` call appends: one
conditional block per channel, in source order, each guarded by that
channel's own delta test on the ORIGINAL state (no stage reads a field
another stage writes). -/
theorem report_mqtt_shape (s : Sys) :
    (reportRoombaSensorChanges s).mqttOut =
      s.mqttOut ++
      ((if s.deltas.voltage <
          |(s.observed.battery.voltage : Int) - (s.reported.battery.voltage : Int)| then
          [(s.sensorTopic ++ "/batteryVoltage", toString s.observed.battery.voltage)]
        else []) ++
       ((if s.deltas.current <
          |s.observed.battery.current - s.reported.battery.current| then
          [(s.sensorTopic ++ "/batteryCurrent", toString s.observed.battery.current)]
        else []) ++
       ((if s.deltas.temperature <
          |s.observed.battery.temperature - s.reported.battery.temperature| then
          [(s.sensorTopic ++ "/batteryTemperature",
            toString s.observed.battery.temperature)]
        else []) ++
       ((if s.deltas.charge <
          |(s.observed.battery.charge : Int) - (s.reported.battery.charge : Int)| then
          [(s.sensorTopic ++ "/batteryCharge", toString s.observed.battery.charge)]
        else []) ++
       ((if s.deltas.percentRemaining <
          |arduinoToInt s.observed.battery.percentRemaining -
            arduinoToInt s.reported.battery.percentRemaining| then
          [(s.sensorTopic ++ "/batteryPercentage", s.observed.battery.percentRemaining)]
        else []) ++
        (if s.observed.battery.chargingState ≠ s.reported.battery.chargingState then
          [(s.sensorTopic ++ "/chargingState", s.observed.battery.chargingState)]
        else [])))))) := by
  unfold reportRoombaSensorChanges
  simp [apply_ite Battery.voltage, apply_ite Battery.current,
    apply_ite Battery.temperature, apply_ite Battery.charge,
    apply_ite Battery.percentRemaining, apply_ite Battery.chargingState,
    List.append_assoc]

@[simp]
theorem report_deltas (s : Sys) :
    (reportRoombaSensorChanges s).deltas = s.deltas := by
  unfold reportRoombaSensorChanges
  simp

@[simp]
theorem report_sensorTopic (s : Sys) :
    (reportRoombaSensorChanges s).sensorTopic = s.sensorTopic := by
  unfold reportRoombaSensorChanges
  simp

theorem report_reported_voltage (s : Sys) :
    (reportRoombaSensorChanges s).reported.battery.voltage =
      (if s.deltas.voltage <
          |(s.observed.battery.voltage : Int) - (s.reported.battery.voltage : Int)| then
        s.observed.battery.voltage else s.reported.battery.voltage) := by
  unfold reportRoombaSensorChanges
  simp [apply_ite Battery.voltage]

theorem report_reported_current (s : Sys) :
    (reportRoombaSensorChanges s).reported.battery.current =
      (if s.deltas.current <
          |s.observed.battery.current - s.reported.battery.current| then
        s.observed.battery.current else s.reported.battery.current) := by
  unfold reportRoombaSensorChanges
  simp [apply_ite Battery.current]

theorem report_reported_temperature (s : Sys) :
    (reportRoombaSensorChanges s).reported.battery.temperature =
      (if s.deltas.temperature <
          |s.observed.battery.temperature - s.reported.battery.temperature| then
        s.observed.battery.temperature else s.reported.battery.temperature) := by
  unfold reportRoombaSensorChanges
  simp [apply_ite Battery.temperature]

theorem report_reported_charge (s : Sys) :
    (reportRoombaSensorChanges s).reported.battery.charge =
      (if s.deltas.charge <
          |(s.observed.battery.charge : Int) - (s.reported.battery.charge : Int)| then
        s.observed.battery.charge else s.reported.battery.charge) := by
  unfold reportRoombaSensorChanges
  simp [apply_ite Battery.charge]

theorem report_reported_percentRemaining (s : Sys) :
    (reportRoombaSensorChanges s).reported.battery.percentRemaining =
      (if s.deltas.percentRemaining <
          |arduinoToInt s.observed.battery.percentRemaining -
            arduinoToInt s.reported.battery.percentRemaining| then
        s.observed.battery.percentRemaining
       else s.reported.battery.percentRemaining) := by
  unfold reportRoombaSensorChanges
  simp [apply_ite Battery.percentRemaining]

theorem report_reported_chargingState (s : Sys) :
    (reportRoombaSensorChanges s).reported.battery.chargingState =
      (if s.observed.battery.chargingState ≠ s.reported.battery.chargingState then
        s.observed.battery.chargingState else s.reported.battery.chargingState) := by
  unfold reportRoombaSensorChanges
  simp [apply_ite Battery.chargingState]

/-- C3: each numeric channel (voltage, current, temperature, charge,
percent-remaining) is published iff the absolute difference between the
observed and last-reported value strictly exceeds that channel's configured
minimum delta; every published channel updates its last-reported value to
the observed value; and a second filter pass over the same observed
snapshot publishes nothing, so an unchanged value is never published twice
in a row. -/
theorem C3_deltaFilter (s : Sys) (hm : s.mqttOut = [])
    (hdv : 0 ≤ s.deltas.voltage) (hdc : 0 ≤ s.deltas.current)
    (hdt : 0 ≤ s.deltas.temperature) (hdch : 0 ≤ s.deltas.charge)
    (hdp : 0 ≤ s.deltas.percentRemaining) :
    (publishesChannel s "/batteryVoltage" ↔
      s.deltas.voltage <
        |(s.observed.battery.voltage : Int) - (s.reported.battery.voltage : Int)|) ∧
    (publishesChannel s "/batteryCurrent" ↔
      s.deltas.current < |s.observed.battery.current - s.reported.battery.current|) ∧
    (publishesChannel s "/batteryTemperature" ↔
      s.deltas.temperature <
        |s.observed.battery.temperature - s.reported.battery.temperature|) ∧
    (publishesChannel s "/batteryCharge" ↔
      s.deltas.charge <
        |(s.observed.battery.charge : Int) - (s.reported.battery.charge : Int)|) ∧
    (publishesChannel s "/batteryPercentage" ↔
      s.deltas.percentRemaining <
        |arduinoToInt s.observed.battery.percentRemaining -
          arduinoToInt s.reported.battery.percentRemaining|) ∧
    (publishesChannel s "/batteryVoltage" →
      (reportRoombaSensorChanges s).reported.battery.voltage =
        s.observed.battery.voltage) ∧
    (publishesChannel s "/batteryCurrent" →
      (reportRoombaSensorChanges s).reported.battery.current =
        s.observed.battery.current) ∧
    (publishesChannel s "/batteryTemperature" →
      (reportRoombaSensorChanges s).reported.battery.temperature =
        s.observed.battery.temperature) ∧
    (publishesChannel s "/batteryCharge" →
      (reportRoombaSensorChanges s).reported.battery.charge =
        s.observed.battery.charge) ∧
    (publishesChannel s "/batteryPercentage" →
      (reportRoombaSensorChanges s).reported.battery.percentRemaining =
        s.observed.battery.percentRemaining) ∧
    (reportRoombaSensorChanges (reportRoombaSensorChanges s)).mqttOut =
      (reportRoombaSensorChanges s).mqttOut := by
  have hV : publishesChannel s "/batteryVoltage" ↔
      s.deltas.voltage <
        |(s.observed.battery.voltage : Int) - (s.reported.battery.voltage : Int)| := by
    unfold publishesChannel
    rw [report_mqtt_shape s, hm]
    simp [mem_ite_nil, Prod.mk.injEq,
      topic_append_ne (show ("/batteryVoltage" : String) ≠ "/batteryCurrent" by decide),
      topic_append_ne (show ("/batteryVoltage" : String) ≠ "/batteryTemperature" by decide),
      topic_append_ne (show ("/batteryVoltage" : String) ≠ "/batteryCharge" by decide),
      topic_append_ne (show ("/batteryVoltage" : String) ≠ "/batteryPercentage" by decide),
      topic_append_ne (show ("/batteryVoltage" : String) ≠ "/chargingState" by decide)]
  have hC : publishesChannel s "/batteryCurrent" ↔
      s.deltas.current < |s.observed.battery.current - s.reported.battery.current| := by
    unfold publishesChannel
    rw [report_mqtt_shape s, hm]
    simp [mem_ite_nil, Prod.mk.injEq,
      topic_append_ne (show ("/batteryCurrent" : String) ≠ "/batteryVoltage" by decide),
      topic_append_ne (show ("/batteryCurrent" : String) ≠ "/batteryTemperature" by decide),
      topic_append_ne (show ("/batteryCurrent" : String) ≠ "/batteryCharge" by decide),
      topic_append_ne (show ("/batteryCurrent" : String) ≠ "/batteryPercentage" by decide),
      topic_append_ne (show ("/batteryCurrent" : String) ≠ "/chargingState" by decide)]
  have hT : publishesChannel s "/batteryTemperature" ↔
      s.deltas.temperature <
        |s.observed.battery.temperature - s.reported.battery.temperature| := by
    unfold publishesChannel
    rw [report_mqtt_shape s, hm]
    simp [mem_ite_nil, Prod.mk.injEq,
      topic_append_ne (show ("/batteryTemperature" : String) ≠ "/batteryVoltage" by decide),
      topic_append_ne (show ("/batteryTemperature" : String) ≠ "/batteryCurrent" by decide),
      topic_append_ne (show ("/batteryTemperature" : String) ≠ "/batteryCharge" by decide),
      topic_append_ne (show ("/batteryTemperature" : String) ≠ "/batteryPercentage" by decide),
      topic_append_ne (show ("/batteryTemperature" : String) ≠ "/chargingState" by decide)]
  have hCh : publishesChannel s "/batteryCharge" ↔
      s.deltas.charge <
        |(s.observed.battery.charge : Int) - (s.reported.battery.charge : Int)| := by
    unfold publishesChannel
    rw [report_mqtt_shape s, hm]
    simp [mem_ite_nil, Prod.mk.injEq,
      topic_append_ne (show ("/batteryCharge" : String) ≠ "/batteryVoltage" by decide),
      topic_append_ne (show ("/batteryCharge" : String) ≠ "/batteryCurrent" by decide),
      topic_append_ne (show ("/batteryCharge" : String) ≠ "/batteryTemperature" by decide),
      topic_append_ne (show ("/batteryCharge" : String) ≠ "/batteryPercentage" by decide),
      topic_append_ne (show ("/batteryCharge" : String) ≠ "/chargingState" by decide)]
  have hP : publishesChannel s "/batteryPercentage" ↔
      s.deltas.percentRemaining <
        |arduinoToInt s.observed.battery.percentRemaining -
          arduinoToInt s.reported.battery.percentRemaining| := by
    unfold publishesChannel
    rw [report_mqtt_shape s, hm]
    simp [mem_ite_nil, Prod.mk.injEq,
      topic_append_ne (show ("/batteryPercentage" : String) ≠ "/batteryVoltage" by decide),
      topic_append_ne (show ("/batteryPercentage" : String) ≠ "/batteryCurrent" by decide),
      topic_append_ne (show ("/batteryPercentage" : String) ≠ "/batteryTemperature" by decide),
      topic_append_ne (show ("/batteryPercentage" : String) ≠ "/batteryCharge" by decide),
      topic_append_ne (show ("/batteryPercentage" : String) ≠ "/chargingState" by decide)]
  refine ⟨hV, hC, hT, hCh, hP,
    fun h => by rw [report_reported_voltage, if_pos (hV.mp h)],
    fun h => by rw [report_reported_current, if_pos (hC.mp h)],
    fun h => by rw [report_reported_temperature, if_pos (hT.mp h)],
    fun h => by rw [report_reported_charge, if_pos (hCh.mp h)],
    fun h => by rw [report_reported_percentRemaining, if_pos (hP.mp h)], ?_⟩
  rw [report_mqtt_shape (reportRoombaSensorChanges s)]
  have e1 : ¬((reportRoombaSensorChanges s).deltas.voltage <
      |((reportRoombaSensorChanges s).observed.battery.voltage : Int) -
        ((reportRoombaSensorChanges s).reported.battery.voltage : Int)|) := by
    rw [report_deltas, reportRoombaSensorChanges_observed, report_reported_voltage]
    split_ifs with h
    · simpa using hdv
    · exact h
  have e2 : ¬((reportRoombaSensorChanges s).deltas.current <
      |(reportRoombaSensorChanges s).observed.battery.current -
        (reportRoombaSensorChanges s).reported.battery.current|) := by
    rw [report_deltas, reportRoombaSensorChanges_observed, report_reported_current]
    split_ifs with h
    · simpa using hdc
    · exact h
  have e3 : ¬((reportRoombaSensorChanges s).deltas.temperature <
      |(reportRoombaSensorChanges s).observed.battery.temperature -
        (reportRoombaSensorChanges s).reported.battery.temperature|) := by
    rw [report_deltas, reportRoombaSensorChanges_observed, report_reported_temperature]
    split_ifs with h
    · simpa using hdt
    · exact h
  have e4 : ¬((reportRoombaSensorChanges s).deltas.charge <
      |((reportRoombaSensorChanges s).observed.battery.charge : Int) -
        ((reportRoombaSensorChanges s).reported.battery.charge : Int)|) := by
    rw [report_deltas, reportRoombaSensorChanges_observed, report_reported_charge]
    split_ifs with h
    · simpa using hdch
    · exact h
  have e5 : ¬((reportRoombaSensorChanges s).deltas.percentRemaining <
      |arduinoToInt (reportRoombaSensorChanges s).observed.battery.percentRemaining -
        arduinoToInt (reportRoombaSensorChanges s).reported.battery.percentRemaining|) := by
    rw [report_deltas, reportRoombaSensorChanges_observed, report_reported_percentRemaining]
    split_ifs with h
    · simpa using hdp
    · exact h
  have e6 : ¬((reportRoombaSensorChanges s).observed.battery.chargingState ≠
      (reportRoombaSensorChanges s).reported.battery.chargingState) := by
    rw [reportRoombaSensorChanges_observed, report_reported_chargingState]
    split_ifs with h
    · simp
    · exact h
  rw [if_neg e1, if_neg e2, if_neg e3, if_neg e4, if_neg e5, if_neg e6]
  simp

/-- Closed instance of `C3_deltaFilter`: a voltage change of 1000 mV
(threshold 200) is published, a change of exactly the 200 mV threshold is
suppressed. -/
theorem C3_deltaFilter_witness :
    publishesChannel
      { initialSys "t" with
        observed := { (initialSys "t").observed with
          battery := { (initialSys "t").observed.battery with voltage := 1000 } } }
      "/batteryVoltage" ∧
    ¬ publishesChannel
      { initialSys "t" with
        observed := { (initialSys "t").observed with
          battery := { (initialSys "t").observed.battery with voltage := 200 } } }
      "/batteryVoltage" :=
  ⟨((C3_deltaFilter _ rfl (by decide) (by decide) (by decide) (by decide)
      (by decide)).1).mpr (by decide),
   fun hp => absurd (((C3_deltaFilter _ rfl (by decide) (by decide) (by decide)
      (by decide) (by decide)).1).mp hp) (by decide)⟩

end Roomba
